import Mathlib

/-!
Verification development for the zone-entry / dominance-metrics analysis of a
soccer match-analysis repository.

The Python source operates on pandas dataframes of match events.  We embed the
event table as a `List Event` (one `Event` per row, with the columns the
analysed functions read), rationals `ℚ` standing for the float-valued
coordinates and xG metrics, `Int` for millisecond timestamps, and
`Except String` for Python exceptions (the string names the Python error
class).  A pandas `metrics` cell holds either `None` or a dict which may or
may not contain the keys `xG` / `xA`; we embed it as
`Option Metrics` with `Option ℚ` fields.
-/

/-- The embedded per-event metrics dict (may lack either key). -/
structure Metrics where
  xG : Option ℚ
  xA : Option ℚ
deriving DecidableEq, Repr

/-- One row of the events dataframe, restricted to the columns read by the
functions under verification. -/
structure Event where
  eventId : Nat
  sequenceId : Nat
  timestamp : Int
  teamName : String
  baseTypeName : String
  resultId : Int
  resultName : String
  startPosXM : ℚ
  startPosYM : ℚ
  endPosXM : ℚ
  endPosYM : ℚ
  metrics : Option Metrics
deriving DecidableEq, Repr

/-- Ordering of events by the `timestamp` column, as used by
`sort_values(by="timestamp")`. -/
def tsLE (a b : Event) : Prop := a.timestamp ≤ b.timestamp

instance : DecidableRel tsLE := fun a b => inferInstanceAs (Decidable (a.timestamp ≤ b.timestamp))

instance : IsTotal Event tsLE := ⟨fun a b => Int.le_total a.timestamp b.timestamp⟩

instance : IsTrans Event tsLE := ⟨fun _ _ _ h1 h2 => le_trans h1 h2⟩

/-- `events.sort_values(by="timestamp")`: a permutation of the rows that is
sorted by timestamp (ties broken arbitrarily, as in pandas' default sort). -/
def sort_by_timestamp (l : List Event) : List Event := List.insertionSort tsLE l

/-! ## src/transform/zone_entries_data.py -/

/-- `is_box_entry` from zone_entries_data.py: the ball moves from outside to
inside the penalty box x ∈ [36, 52.5], y ∈ [-20.16, 20.16]. -/
def is_box_entry (event : Event) : Bool :=
  let started_inside :=
    decide (36 ≤ event.startPosXM ∧ event.startPosXM ≤ 52.5 ∧
      -20.16 ≤ event.startPosYM ∧ event.startPosYM ≤ 20.16)
  let ended_inside :=
    decide (36 ≤ event.endPosXM ∧ event.endPosXM ≤ 52.5 ∧
      -20.16 ≤ event.endPosYM ∧ event.endPosYM ≤ 20.16)
  !started_inside && ended_inside

/-- `classify_entry_zone` from zone_entries_data.py (`None` for x < 17.5). -/
def classify_entry_zone (x y : ℚ) : Option String :=
  if x < 17.5 then none
  else if y < -12 then some "right"
  else if y > 12 then some "left"
  else some "center"

/-- The turnover test of the scan loop in `analyze_sequence_outcome`:
`event['baseTypeName'] in ['INTERCEPTION', 'CLEARANCE'] and event['teamName'] != team_name`. -/
def is_turnover_event (team_name : String) (event : Event) : Bool :=
  decide ((event.baseTypeName = "INTERCEPTION" ∨ event.baseTypeName = "CLEARANCE") ∧
    event.teamName ≠ team_name)

/-- `event["metrics"]["xG"]`: raises `TypeError` when the metrics cell is
`None` and `KeyError` when the dict lacks the key. -/
def get_shot_xg (event : Event) : Except String ℚ :=
  match event.metrics with
  | none => Except.error "TypeError"
  | some m =>
    match m.xG with
    | none => Except.error "KeyError"
    | some v => Except.ok v

/-- One recorded shot of the scan loop (`{"xG": ..., "goal": ...}`). -/
structure ShotRec where
  xG : ℚ
  goal : Bool
deriving DecidableEq, Repr

/-- The outcome dict produced by `analyze_sequence_outcome`. -/
structure Outcome where
  box_entry : Bool
  box_entry_count : Nat
  shot : Bool
  shot_count : Nat
  goal : Bool
  goal_count : Nat
  total_xg : ℚ
  turnover : Bool
  recycled : Bool
deriving DecidableEq, Repr

/-- The `for _, event in next_events.iterrows()` loop of
`analyze_sequence_outcome`: walks the events in order, stopping at the first
opposing-team INTERCEPTION/CLEARANCE (returned flag `true`), accumulating box
entries (event ids) and shots (xG and goal flag); a SHOT whose metrics lack
`xG` raises. -/
def scan_next_events (team_name : String) :
    List Event → List Nat → List ShotRec → Except String (Bool × List Nat × List ShotRec)
  | [], boxes, shots => Except.ok (false, boxes, shots)
  | event :: rest, boxes, shots =>
    if is_turnover_event team_name event then
      Except.ok (true, boxes, shots)
    else
      let boxes' := if is_box_entry event then boxes ++ [event.eventId] else boxes
      if event.baseTypeName = "SHOT" then
        match get_shot_xg event with
        | Except.error s => Except.error s
        | Except.ok shot_xg =>
          scan_next_events team_name rest boxes' (shots ++ [⟨shot_xg, decide (event.resultId = 1)⟩])
      else
        scan_next_events team_name rest boxes' shots

/-- The window selection of `analyze_sequence_outcome`: same sequence,
timestamp in [entry_timestamp, entry_timestamp + time_window], sorted by
timestamp. -/
def next_events_in_window (events_df : List Event) (sequence_id : Nat)
    (entry_timestamp time_window : Int) : List Event :=
  sort_by_timestamp (events_df.filter (fun e =>
    decide (e.sequenceId = sequence_id ∧ entry_timestamp ≤ e.timestamp ∧
      e.timestamp ≤ entry_timestamp + time_window)))

/-- The `another_entry` filter of `analyze_sequence_outcome`: any other event
(by id) with start x < 17.5 and end x ≥ 17.5. -/
def another_entry_in (next_events : List Event) (entry_event_id : Nat) : List Event :=
  next_events.filter (fun e =>
    decide (e.eventId ≠ entry_event_id ∧ e.startPosXM < 17.5 ∧ e.endPosXM ≥ 17.5))

/-- The recycle detection and truncation step of `analyze_sequence_outcome`:
when `another_entry` is nonempty, keep only the events strictly before the
first recycled entry's timestamp and report `recycled = true`. -/
def truncated_next_events (next_events : List Event) (entry_event_id : Nat) :
    List Event × Bool :=
  match another_entry_in next_events entry_event_id with
  | [] => (next_events, false)
  | recycled_entry :: _ =>
    (next_events.filter (fun e => decide (e.timestamp < recycled_entry.timestamp)), true)

/-- The aggregation at the end of `analyze_sequence_outcome`, assembling the
outcome dict from the scan results. -/
def outcome_from_scan (recycled turnover : Bool) (boxes : List Nat) (shots : List ShotRec) :
    Outcome :=
  { box_entry := decide (0 < boxes.length)
    box_entry_count := if 0 < boxes.length then boxes.length else 0
    shot := decide (0 < shots.length)
    shot_count := if 0 < shots.length then shots.length else 0
    goal := if 0 < shots.length then shots.any (fun s => s.goal) else false
    goal_count := if 0 < shots.length then (shots.filter (fun s => s.goal)).length else 0
    total_xg := if 0 < shots.length then (shots.map (fun s => s.xG)).sum else 0
    turnover := turnover
    recycled := recycled }

/-- Scan a (already truncated) event list and assemble the outcome. -/
def analyze_events (team_name : String) (next_events : List Event) (recycled : Bool) :
    Except String Outcome :=
  match scan_next_events team_name next_events [] [] with
  | Except.error s => Except.error s
  | Except.ok (turnover, boxes, shots) =>
    Except.ok (outcome_from_scan recycled turnover boxes shots)

/-- `analyze_sequence_outcome` from zone_entries_data.py: select the window,
detect recycling and truncate, walk the remaining events, aggregate.  The
`try/except` of the Python function logs and re-raises, so errors propagate
unchanged (`Except.error`). -/
def analyze_sequence_outcome (team_name : String) (events_df : List Event)
    (sequence_id : Nat) (entry_event_id : Nat) (entry_timestamp : Int)
    (time_window : Int) : Except String Outcome :=
  let next0 := next_events_in_window events_df sequence_id entry_timestamp time_window
  let truncated := truncated_next_events next0 entry_event_id
  analyze_events team_name truncated.1 truncated.2

/-! ## src/transform/final_third_entries_data.py -/

/-- `df.apply` over `Except`: apply `f` to every row, propagating the first
raised error unchanged (a raising row aborts the whole dataframe operation). -/
def mapExcept (f : α → Except String β) : List α → Except String (List β)
  | [] => Except.ok []
  | a :: l =>
    match f a with
    | Except.error s => Except.error s
    | Except.ok b =>
      match mapExcept f l with
      | Except.error s => Except.error s
      | Except.ok bs => Except.ok (b :: bs)

/-- The row filter of `get_final_third_entries`: PASS/DRIBBLE, resultId == 1,
start x < 17.5, end x ≥ 17.5. -/
def final_third_entry_pred (e : Event) : Bool :=
  decide ((e.baseTypeName = "PASS" ∨ e.baseTypeName = "DRIBBLE") ∧ e.resultId = 1 ∧
    e.startPosXM < 17.5 ∧ e.endPosXM ≥ 17.5)

/-- `x["xA"] if x is not None else 0` applied to the metrics cell: defaults to
0 when the cell is `None`, raises `KeyError` when the dict lacks `xA`. -/
def get_entry_xa (e : Event) : Except String ℚ :=
  match e.metrics with
  | none => Except.ok 0
  | some m =>
    match m.xA with
    | none => Except.error "KeyError"
    | some v => Except.ok v

/-- One row of the dataframe returned by `get_final_third_entries`: the
selected columns of the event plus the extracted `xA`. -/
structure FTERow where
  eventId : Nat
  timestamp : Int
  teamName : String
  baseTypeName : String
  resultName : String
  startPosXM : ℚ
  endPosXM : ℚ
  startPosYM : ℚ
  endPosYM : ℚ
  sequenceId : Nat
  xA : ℚ
deriving DecidableEq, Repr

/-- Column selection of `get_final_third_entries` for one filtered row. -/
def FTERow.ofEvent (e : Event) (xa : ℚ) : FTERow :=
  ⟨e.eventId, e.timestamp, e.teamName, e.baseTypeName, e.resultName,
    e.startPosXM, e.endPosXM, e.startPosYM, e.endPosYM, e.sequenceId, xa⟩

/-- `get_final_third_entries` from final_third_entries_data.py: filter the
entry rows, extract `xA` (which may raise), select the output columns.  The
`try/except` logs and re-raises, so errors propagate unchanged. -/
def get_final_third_entries (events_df : List Event) : Except String (List FTERow) :=
  mapExcept (fun e =>
    match get_entry_xa e with
    | Except.error s => Except.error s
    | Except.ok xa => Except.ok (FTERow.ofEvent e xa))
    (events_df.filter final_third_entry_pred)

/-- One row of the dataframe returned by `get_zone_entries_data`: the entry
row, its `entry_zone`, and the outcome dict (whose fields the Python code
additionally copies into flat columns of the same row). -/
structure EntryRow where
  base : FTERow
  entry_zone : Option String
  outcome : Outcome
deriving DecidableEq, Repr

/-- `get_zone_entries_data` from zone_entries_data.py: keep the team's entry
rows, classify each entry zone from the end position, and run
`analyze_sequence_outcome` per row (errors propagate, the `except` re-raises). -/
def get_zone_entries_data (final_third_entries_df : List FTERow) (events_df : List Event)
    (team_name : String) : Except String (List EntryRow) :=
  mapExcept (fun r =>
    match analyze_sequence_outcome team_name events_df r.sequenceId r.eventId r.timestamp 15000 with
    | Except.error s => Except.error s
    | Except.ok out =>
      Except.ok ⟨r, classify_entry_zone r.endPosXM r.endPosYM, out⟩)
    (final_third_entries_df.filter fun r => decide (r.teamName = team_name))

/-! ## src/stats/calculate_entry_zone_stats.py -/

/-- One output row of `calculate_entry_zone_stats`.  `xg_per_shot` is a float
that may be NaN; we embed NaN as `none`. -/
structure ZoneStats where
  entry_zone : String
  total_entries : Nat
  entries_with_shot : Nat
  total_shots : Nat
  shot_rate : ℚ
  total_xg : ℚ
  xg_per_entry : ℚ
  xg_per_shot : Option ℚ
  entries_with_box_entry : Nat
  total_box_entries : Nat
  box_entry_rate : ℚ
  total_turnovers : Nat
  turnover_rate : ℚ
  total_recycles : Nat
  recycle_rate : ℚ
deriving DecidableEq, Repr

/-- `summary['total_shots'].replace(0, float('nan'))`: the denominator used
for `xg_per_shot`, with 0 replaced by NaN (`none`). -/
def replace_zero_with_nan (n : Nat) : Option ℚ :=
  if n = 0 then none else some (n : ℚ)

/-- Division of a float by a possibly-NaN float: anything divided by NaN is
NaN. -/
def div_by_nanable (a : ℚ) (b : Option ℚ) : Option ℚ :=
  match b with
  | none => none
  | some d => some (a / d)

/-- The per-group aggregation of `calculate_entry_zone_stats` for one
`entry_zone` group (pandas `groupby.agg` sums/counts followed by the rate and
xG columns). -/
def zone_group_stats (zone : String) (rows : List EntryRow) : ZoneStats :=
  let total_entries := rows.length
  let entries_with_shot := (rows.filter fun r => r.outcome.shot).length
  let total_shots := (rows.map fun r => r.outcome.shot_count).sum
  let entries_with_box_entry := (rows.filter fun r => r.outcome.box_entry).length
  let total_box_entries := (rows.map fun r => r.outcome.box_entry_count).sum
  let total_xg := (rows.map fun r => r.outcome.total_xg).sum
  let total_turnovers := (rows.filter fun r => r.outcome.turnover).length
  let total_recycles := (rows.filter fun r => r.outcome.recycled).length
  { entry_zone := zone
    total_entries := total_entries
    entries_with_shot := entries_with_shot
    total_shots := total_shots
    shot_rate := ((entries_with_shot : ℚ) / (total_entries : ℚ)) * 100
    total_xg := total_xg
    xg_per_entry := total_xg / (total_entries : ℚ)
    xg_per_shot := div_by_nanable total_xg (replace_zero_with_nan total_shots)
    entries_with_box_entry := entries_with_box_entry
    total_box_entries := total_box_entries
    box_entry_rate := ((entries_with_box_entry : ℚ) / (total_entries : ℚ)) * 100
    total_turnovers := total_turnovers
    turnover_rate := ((total_turnovers : ℚ) / (total_entries : ℚ)) * 100
    total_recycles := total_recycles
    recycle_rate := ((total_recycles : ℚ) / (total_entries : ℚ)) * 100 }

/-- The distinct group keys of a groupby (each key once; pandas orders the
groups by key, which no verified property depends on). -/
def distinct_keys : List String → List String
  | [] => []
  | k :: rest => if k ∈ rest then distinct_keys rest else k :: distinct_keys rest

/-- `calculate_entry_zone_stats`: group the entry rows by `entry_zone`
(pandas drops rows whose group key is missing) and aggregate each nonempty
group; zones without entries produce no row. -/
def calculate_entry_zone_stats (entries_df : List EntryRow) : List ZoneStats :=
  (distinct_keys (entries_df.filterMap fun r => r.entry_zone)).map fun z =>
    zone_group_stats z (entries_df.filter fun r => r.entry_zone = some z)

/-! ## src/config/config.py -/

/-- One named rectangular pitch zone (`'name': {'x': [lo, hi], 'y': [lo, hi]}`). -/
structure Zone where
  name : String
  x_min : ℚ
  x_max : ℚ
  y_min : ℚ
  y_max : ℚ
deriving DecidableEq, Repr

/-- `PitchZones.ZONES`, in the dict's (insertion-ordered) iteration order. -/
def ZONES : List Zone :=
  [⟨"left_progression", -17.5, 17.5, 12, 34⟩,
   ⟨"center_progression", -17.5, 17.5, -12, 12⟩,
   ⟨"right_progression", -17.5, 17.5, -34, -12⟩,
   ⟨"left_final_third", 17.5, 52.5, 12, 34⟩,
   ⟨"center_final_third", 17.5, 52.5, -12, 12⟩,
   ⟨"right_final_third", 17.5, 52.5, -34, -12⟩]

/-- The inclusive rectangle test of `get_zone_for_position`. -/
def zone_contains (z : Zone) (x y : ℚ) : Prop :=
  z.x_min ≤ x ∧ x ≤ z.x_max ∧ z.y_min ≤ y ∧ y ≤ z.y_max

instance (z : Zone) (x y : ℚ) : Decidable (zone_contains z x y) := by
  unfold zone_contains; infer_instance

/-- The `for zone_name, coords in cls.ZONES.items()` loop of
`get_zone_for_position`: first zone containing the point wins, otherwise the
sentinel. -/
def find_zone : List Zone → ℚ → ℚ → String
  | [], _, _ => "build_up_zone"
  | z :: rest, x, y => if zone_contains z x y then z.name else find_zone rest x y

/-- `PitchZones.get_zone_for_position`. -/
def get_zone_for_position (x y : ℚ) : String := find_zone ZONES x y

/-! ## src/stats/dominance_metrics.py

The dominance-metric functions read whole dataframe columns
(`events_df["baseTypeName"]` etc.); in pandas such an access raises
`KeyError` when the frame lacks the column.  We therefore embed their input
as the rows together with the frame's column list, and each function first
requires the columns it subscripts. -/

/-- An events dataframe: its rows and the set of columns it carries. -/
structure EventsDF where
  rows : List Event
  cols : List String
deriving Repr

/-- Whether the frame carries all the named columns. -/
def has_cols (df : EventsDF) (cs : List String) : Bool :=
  cs.all fun c => df.cols.contains c

/-- The result dict of `calculate_successful_passes`. -/
structure SuccessfulPasses where
  team1_successful_passes : Nat
  team2_successful_passes : Nat
deriving DecidableEq, Repr

/-- `calculate_successful_passes` from dominance_metrics.py.  Its `except`
clause only logs — there is no `raise` — so when the body raises (e.g. a
`KeyError` from a missing column) the Python function returns `None`; we
embed that as an `Option` result with `none` for the swallowed failure. -/
def calculate_successful_passes (events_df : EventsDF) (team1_name team2_name : String) :
    Option SuccessfulPasses :=
  if has_cols events_df ["baseTypeName", "resultName", "teamName"] then
    let passes := events_df.rows.filter fun e =>
      decide (e.baseTypeName = "PASS" ∧ e.resultName = "SUCCESSFUL")
    some ⟨(passes.filter fun e => decide (e.teamName = team1_name)).length,
          (passes.filter fun e => decide (e.teamName = team2_name)).length⟩
  else none

/-- The result dict of `calculate_field_tilt`. -/
structure FieldTilt where
  team1_field_tilt : ℚ
  team2_field_tilt : ℚ
deriving DecidableEq, Repr

/-- `calculate_field_tilt` from dominance_metrics.py: passes with END x
≥ 17.5 (any team, any result), each team's share of that total as a
percentage.  Its `except` re-raises, so both a missing column (`KeyError`)
and an empty final-third pass set (`ZeroDivisionError` from `/ total_passes`)
propagate as errors. -/
def calculate_field_tilt (events_df : EventsDF) (team1_name team2_name : String) :
    Except String FieldTilt :=
  if has_cols events_df ["baseTypeName", "endPosXM", "teamName"] then
    let passes_in_final_third := events_df.rows.filter fun e =>
      decide (e.baseTypeName = "PASS" ∧ e.endPosXM ≥ 17.5)
    let total_passes := passes_in_final_third.length
    let team1_passes := (passes_in_final_third.filter fun e => decide (e.teamName = team1_name)).length
    let team2_passes := (passes_in_final_third.filter fun e => decide (e.teamName = team2_name)).length
    if total_passes = 0 then Except.error "ZeroDivisionError"
    else Except.ok ⟨((team1_passes : ℚ) / (total_passes : ℚ)) * 100,
                    ((team2_passes : ℚ) / (total_passes : ℚ)) * 100⟩
  else Except.error "KeyError"

/-- The result dict of `calculate_progressive_passes`. -/
structure ProgressivePasses where
  team1_prog_passes : Nat
  team2_prog_passes : Nat
  team1_prog_passes_outside_final_third : Nat
  team2_prog_passes_outside_final_third : Nat
  team1_prog_passes_in_final_third : Nat
  team2_prog_passes_in_final_third : Nat
deriving DecidableEq, Repr

/-- The "outside the final third" filter of `calculate_progressive_passes`:
`endPosXM < 17.5` and progress (`endPosXM - startPosXM`) ≥ 10. -/
def prog_pass_outside_pred (e : Event) : Bool :=
  decide (e.endPosXM < 17.5 ∧ e.endPosXM - e.startPosXM ≥ 10)

/-- The filter the source comments call "progressive passes inside the final
third": as written it again requires `endPosXM < 17.5` (not ≥ 17.5), with
progress ≥ 5. -/
def prog_pass_inside_pred (e : Event) : Bool :=
  decide (e.endPosXM < 17.5 ∧ e.endPosXM - e.startPosXM ≥ 5)

/-- `calculate_progressive_passes` from dominance_metrics.py, transcribed
with the filters exactly as written (both category filters test
`endPosXM < 17.5`); the per-team total is the sum of the two category
counts. -/
def calculate_progressive_passes (events_df : EventsDF) (team1_name team2_name : String) :
    Except String ProgressivePasses :=
  if has_cols events_df ["baseTypeName", "resultName", "endPosXM", "startPosXM", "teamName"] then
    let passes := events_df.rows.filter fun e =>
      decide (e.baseTypeName = "PASS" ∧ e.resultName = "SUCCESSFUL")
    let outside := passes.filter prog_pass_outside_pred
    let inside := passes.filter prog_pass_inside_pred
    let t1_out := (outside.filter fun e => decide (e.teamName = team1_name)).length
    let t2_out := (outside.filter fun e => decide (e.teamName = team2_name)).length
    let t1_in := (inside.filter fun e => decide (e.teamName = team1_name)).length
    let t2_in := (inside.filter fun e => decide (e.teamName = team2_name)).length
    Except.ok ⟨t1_out + t1_in, t2_out + t2_in, t1_out, t2_out, t1_in, t2_in⟩
  else Except.error "KeyError"

/-! ## Spec-side reference definitions

For the refinement claims we also write down, separately and only for
comparison, what the specification's words describe. -/

/-- Modelled from the spec: a successful pass is progressive when it advances
end-x minus start-x by ≥ 10 if it ends outside the final third
(end x < 17.5), or by ≥ 5 if it ends inside it (end x ≥ 17.5). -/
def progressive_pass_spec (e : Event) : Bool :=
  decide (e.baseTypeName = "PASS" ∧ e.resultName = "SUCCESSFUL" ∧
    ((e.endPosXM < 17.5 ∧ e.endPosXM - e.startPosXM ≥ 10) ∨
     (e.endPosXM ≥ 17.5 ∧ e.endPosXM - e.startPosXM ≥ 5)))

/-- Modelled from the spec: the per-team progressive-pass count the spec
describes. -/
def progressive_passes_spec (rows : List Event) (team : String) : Nat :=
  ((rows.filter progressive_pass_spec).filter fun e => decide (e.teamName = team)).length

/-- Modelled from the spec: the claimed field tilt — the team's passes whose
START x ≥ 17.5, as a percentage of both teams' such passes. -/
def field_tilt_spec (rows : List Event) (team other : String) : ℚ :=
  let all := rows.filter fun e =>
    decide (e.baseTypeName = "PASS" ∧ e.startPosXM ≥ 17.5 ∧
      (e.teamName = team ∨ e.teamName = other))
  let mine := all.filter fun e => decide (e.teamName = team)
  ((mine.length : ℚ) / (all.length : ℚ)) * 100

/-! ## Concrete example tables used by the claim witnesses -/

/-- All columns the dominance-metric functions subscript. -/
def all_cols : List String :=
  ["eventId", "sequenceId", "timestamp", "teamName", "baseTypeName", "resultId",
   "resultName", "startPosXM", "startPosYM", "endPosXM", "endPosYM", "metrics"]

/-- Entry event: team A carries the ball from x = 10 to x = 20 at t = 0. -/
def c1_entry : Event :=
  ⟨1, 1, 0, "A", "PASS", 1, "SUCCESSFUL", 10, 0, 20, 0, some ⟨none, some 0⟩⟩

/-- Defending team B clears inside the final third at t = 1000 (not an entry:
start x ≥ 17.5). -/
def c1_clearance : Event :=
  ⟨2, 1, 1000, "B", "CLEARANCE", 0, "UNSUCCESSFUL", 25, 5, 40, 20, none⟩

/-- Team A shoots at t = 2000 (after the turnover event). -/
def c1_shot : Event :=
  ⟨3, 1, 2000, "A", "SHOT", 1, "SUCCESSFUL", 30, 0, 52, 0, some ⟨some (1/2), none⟩⟩

/-- The window of the turnover short-circuit example:
[entry@t0, CLEARANCE by the defending team @t0+1000, SHOT by the attacking team @t0+2000]. -/
def c1_events : List Event := [c1_entry, c1_clearance, c1_shot]

/-- The outcome the tracer returns on `c1_events`. -/
def c1_expected : Outcome := ⟨false, 0, false, 0, false, 0, 0, true, false⟩

/-- Entry event of the recycle-truncation example. -/
def c2_entry : Event :=
  ⟨1, 1, 0, "A", "PASS", 1, "SUCCESSFUL", 10, 0, 20, 0, some ⟨none, some 0⟩⟩

/-- A second entry (start x < 17.5, end x ≥ 17.5) at t0 + 5000. -/
def c2_second_entry : Event :=
  ⟨2, 1, 5000, "A", "PASS", 1, "SUCCESSFUL", 15, 0, 19, 0, some ⟨none, some 0⟩⟩

/-- A shot at t0 + 8000, after the recycled entry. -/
def c2_shot : Event :=
  ⟨3, 1, 8000, "A", "SHOT", 1, "SUCCESSFUL", 30, 0, 52, 0, some ⟨some (1/2), none⟩⟩

/-- The recycle-truncation example window: [entry@t0, second-entry@t0+5000, shot@t0+8000]. -/
def c2_events : List Event := [c2_entry, c2_second_entry, c2_shot]

/-- The outcome the tracer returns on `c2_events`. -/
def c2_expected : Outcome := ⟨false, 0, false, 0, false, 0, 0, false, true⟩

/-- A SHOT event whose metrics cell is `None` (no xG available). -/
def c3_shot_no_xg : Event :=
  ⟨2, 1, 1000, "A", "SHOT", 1, "SUCCESSFUL", 30, 0, 52, 0, none⟩

/-- Window with an entry followed by a shot that has no xG metrics. -/
def c3_events : List Event := [c1_entry, c3_shot_no_xg]

/-- An opposing-team clearance that crosses into the final third
(start x < 17.5, end x ≥ 17.5): type, team and result are irrelevant to the
recycle filter. -/
def c10_opp_clearance : Event :=
  ⟨2, 1, 1000, "B", "CLEARANCE", 0, "UNSUCCESSFUL", 15, 0, 18, 0, none⟩

/-- Window with an entry followed by an opponent clearance that crosses into
the final third. -/
def c10_events : List Event := [c1_entry, c10_opp_clearance]

/-- A qualifying final-third entry for team A ending left (end y = 13 > 12). -/
def c7_entry_left : Event :=
  ⟨1, 1, 0, "A", "PASS", 1, "SUCCESSFUL", 10, 5, 20, 13, some ⟨none, some 0⟩⟩

/-- A pass that never reaches the final third (end x = 15 < 17.5): dropped. -/
def c7_short_pass : Event :=
  ⟨2, 1, 1000, "A", "PASS", 1, "SUCCESSFUL", 5, 0, 15, 0, some ⟨none, some 0⟩⟩

/-- A qualifying entry for the other team B (filtered out for team A). -/
def c7_entry_b : Event :=
  ⟨3, 2, 2000, "B", "DRIBBLE", 1, "SUCCESSFUL", 16, 0, 18, -20, some ⟨none, some 0⟩⟩

/-- The entry-detector example table. -/
def c7_events : List Event := [c7_entry_left, c7_short_pass, c7_entry_b]

/-- An aggregated entry row in zone "center" with or without a shot. -/
def c9_row (shot : Bool) : EntryRow :=
  ⟨⟨1, 0, "A", "PASS", "SUCCESSFUL", 10, 20, 0, 0, 1, 0⟩, some "center",
   ⟨false, 0, shot, if shot then 1 else 0, false, 0, 0, false, false⟩⟩

/-- Ten entries in zone "center", three of which led to a shot. -/
def c9_rows : List EntryRow :=
  [c9_row true, c9_row true, c9_row true, c9_row false, c9_row false,
   c9_row false, c9_row false, c9_row false, c9_row false, c9_row false]

/-- A successful pass by team A advancing from x = 0 to x = 12 (progress 12,
ending outside the final third). -/
def c4_pass : Event :=
  ⟨1, 1, 0, "A", "PASS", 1, "SUCCESSFUL", 0, 0, 12, 0, none⟩

/-- Dataframe with the single progressive pass `c4_pass`. -/
def c4_df : EventsDF := ⟨[c4_pass], all_cols⟩

/-- A pass by team A starting inside the final third (x = 20) and played
backwards out of it (end x = 0). -/
def c5_pass_a : Event :=
  ⟨1, 1, 0, "A", "PASS", 1, "SUCCESSFUL", 20, 1, 0, 2, none⟩

/-- A pass by team B from x = 0 into the final third (end x = 20). -/
def c5_pass_b : Event :=
  ⟨2, 1, 1000, "B", "PASS", 1, "SUCCESSFUL", 0, 0, 20, 0, none⟩

/-- Dataframe for the field-tilt counterexample. -/
def c5_df : EventsDF := ⟨[c5_pass_a, c5_pass_b], all_cols⟩

/-- A dataframe carrying no columns at all: every column subscript raises
`KeyError`. -/
def empty_df : EventsDF := ⟨[], []⟩

/-- A scanned event that cannot raise in the shot branch: either it is not a
SHOT, or its xG lookup succeeds. -/
def shot_ok (e : Event) : Prop := e.baseTypeName = "SHOT" → ∃ q, get_shot_xg e = Except.ok q

/-- The shot records a clean scan of `l` appends (in order): xG value and
goal flag of every SHOT event whose xG lookup succeeds. -/
def shots_of : List Event → List ShotRec
  | [] => []
  | e :: rest =>
    if e.baseTypeName = "SHOT" then
      match get_shot_xg e with
      | Except.ok q => ⟨q, decide (e.resultId = 1)⟩ :: shots_of rest
      | Except.error _ => shots_of rest
    else shots_of rest

/-- The box-entry event ids a scan of `l` appends, in order. -/
def boxes_of (l : List Event) : List Nat :=
  (l.filter is_box_entry).map fun e => e.eventId

theorem scan_append_turnover (team : String) (l1 l2 : List Event) (e : Event)
    (h : is_turnover_event team e = true) (b : List Nat) (s : List ShotRec) :
    scan_next_events team (l1 ++ e :: l2) b s = scan_next_events team (l1 ++ [e]) b s := by
  induction l1 generalizing b s with
  | nil => simp [scan_next_events, h]
  | cons x rest ih =>
    simp only [List.cons_append, scan_next_events]
    by_cases hx : is_turnover_event team x
    · simp [hx]
    · simp only [hx, if_false]
      by_cases hs : x.baseTypeName = "SHOT"
      · simp only [hs, if_true]
        cases hxg : get_shot_xg x with
        | error s' => rfl
        | ok q => exact ih _ _
      · simp only [hs, if_false]
        exact ih _ _

theorem scan_reaches_turnover (team : String) (l1 l2 : List Event) (e : Event)
    (h : is_turnover_event team e = true) (hclean : ∀ x ∈ l1, shot_ok x)
    (b : List Nat) (s : List ShotRec) :
    ∃ res : Bool × List Nat × List ShotRec,
      scan_next_events team (l1 ++ e :: l2) b s = Except.ok res ∧ res.1 = true := by
  induction l1 generalizing b s with
  | nil => exact ⟨(true, b, s), by simp [scan_next_events, h], rfl⟩
  | cons x rest ih =>
    simp only [List.cons_append, scan_next_events]
    by_cases hx : is_turnover_event team x
    · exact ⟨(true, b, s), by simp [hx], rfl⟩
    · have hrest : ∀ y ∈ rest, shot_ok y := fun y hy => hclean y (List.mem_cons_of_mem _ hy)
      simp only [hx, if_false]
      by_cases hs : x.baseTypeName = "SHOT"
      · obtain ⟨q, hq⟩ := hclean x (List.mem_cons_self _ _) hs
        simp only [hs, if_true, hq]
        exact ih hrest _ _
      · simp only [hs, if_false]
        exact ih hrest _ _

theorem scan_clean_run (team : String) (l : List Event)
    (h1 : ∀ x ∈ l, is_turnover_event team x = false) (h2 : ∀ x ∈ l, shot_ok x)
    (b : List Nat) (s : List ShotRec) :
    scan_next_events team l b s = Except.ok (false, b ++ boxes_of l, s ++ shots_of l) := by
  induction l generalizing b s with
  | nil => simp [scan_next_events, boxes_of, shots_of]
  | cons x rest ih =>
    have hx := h1 x (List.mem_cons_self _ _)
    have hrest1 : ∀ y ∈ rest, is_turnover_event team y = false :=
      fun y hy => h1 y (List.mem_cons_of_mem _ hy)
    have hrest2 : ∀ y ∈ rest, shot_ok y := fun y hy => h2 y (List.mem_cons_of_mem _ hy)
    simp only [scan_next_events, hx, if_false, Bool.false_eq_true]
    by_cases hs : x.baseTypeName = "SHOT"
    · obtain ⟨q, hq⟩ := h2 x (List.mem_cons_self _ _) hs
      simp only [hs, if_true, hq, ih hrest1 hrest2]
      by_cases hbx : is_box_entry x
      · simp [hbx, boxes_of, shots_of, hs, hq, List.filter_cons]
      · simp [hbx, boxes_of, shots_of, hs, hq, List.filter_cons]
    · simp only [hs, if_false, ih hrest1 hrest2]
      by_cases hbx : is_box_entry x
      · simp [hbx, boxes_of, shots_of, hs, List.filter_cons]
      · simp [hbx, boxes_of, shots_of, hs, List.filter_cons]

theorem scan_reaches_error (team : String) (l1 l2 : List Event) (e : Event) (msg : String)
    (h1 : ∀ x ∈ l1, is_turnover_event team x = false) (h2 : ∀ x ∈ l1, shot_ok x)
    (he1 : is_turnover_event team e = false) (he2 : e.baseTypeName = "SHOT")
    (he3 : get_shot_xg e = Except.error msg)
    (b : List Nat) (s : List ShotRec) :
    scan_next_events team (l1 ++ e :: l2) b s = Except.error msg := by
  induction l1 generalizing b s with
  | nil => simp [scan_next_events, he1, he2, he3]
  | cons x rest ih =>
    have hx := h1 x (List.mem_cons_self _ _)
    have hrest1 : ∀ y ∈ rest, is_turnover_event team y = false :=
      fun y hy => h1 y (List.mem_cons_of_mem _ hy)
    have hrest2 : ∀ y ∈ rest, shot_ok y := fun y hy => h2 y (List.mem_cons_of_mem _ hy)
    simp only [List.cons_append, scan_next_events, hx, if_false, Bool.false_eq_true]
    by_cases hs : x.baseTypeName = "SHOT"
    · obtain ⟨q, hq⟩ := h2 x (List.mem_cons_self _ _) hs
      simp only [hs, if_true, hq]
      exact ih hrest1 hrest2 _ _
    · simp only [hs, if_false]
      exact ih hrest1 hrest2 _ _

theorem analyze_events_ok_iff (team : String) (l : List Event) (r : Bool) (out : Outcome) :
    analyze_events team l r = Except.ok out ↔
      ∃ t b s, scan_next_events team l [] [] = Except.ok (t, b, s) ∧
        out = outcome_from_scan r t b s := by
  unfold analyze_events
  cases h : scan_next_events team l [] [] with
  | error s =>
    constructor
    · intro he; cases he
    · rintro ⟨t, b, s', hs, _⟩
      cases hs
  | ok res =>
    obtain ⟨t, b, s⟩ := res
    constructor
    · intro he
      injection he with he
      exact ⟨t, b, s, rfl, he.symm⟩
    · rintro ⟨t', b', s', hs, ho⟩
      injection hs with hs
      cases hs
      rw [ho]

theorem next_events_in_window_sorted (events_df : List Event) (sequence_id : Nat)
    (entry_timestamp time_window : Int) :
    List.Sorted tsLE (next_events_in_window events_df sequence_id entry_timestamp time_window) :=
  List.sorted_insertionSort tsLE _

theorem another_entry_in_sorted (next_events : List Event) (entry_event_id : Nat)
    (h : List.Sorted tsLE next_events) :
    List.Sorted tsLE (another_entry_in next_events entry_event_id) :=
  List.Pairwise.sublist (List.filter_sublist _) h

theorem sorted_head_min (r : Event) (rest : List Event) (h : List.Sorted tsLE (r :: rest)) :
    ∀ x ∈ r :: rest, r.timestamp ≤ x.timestamp := by
  intro x hx
  rcases List.mem_cons.mp hx with rfl | hx'
  · exact le_refl _
  · exact List.rel_of_sorted_cons h x hx'

theorem mapExcept_ok_forall2 {α β : Type} (f : α → Except String β) (l : List α)
    (l' : List β) (h : mapExcept f l = Except.ok l') :
    List.Forall₂ (fun a b => f a = Except.ok b) l l' := by
  induction l generalizing l' with
  | nil =>
    simp only [mapExcept] at h
    cases h
    exact List.Forall₂.nil
  | cons a rest ih =>
    simp only [mapExcept] at h
    cases hfa : f a with
    | error s => rw [hfa] at h; cases h
    | ok b =>
      rw [hfa] at h
      cases hrest : mapExcept f rest with
      | error s => rw [hrest] at h; cases h
      | ok bs =>
        rw [hrest] at h
        cases h
        exact List.Forall₂.cons hfa (ih _ hrest)

theorem mapExcept_error_of_mem {α β : Type} (f : α → Except String β) (l : List α)
    (a : α) (s : String) (ha : a ∈ l) (hf : f a = Except.error s) :
    ∃ s', mapExcept f l = Except.error s' := by
  induction l with
  | nil => cases ha
  | cons x rest ih =>
    rcases List.mem_cons.mp ha with rfl | ha'
    · exact ⟨s, by simp [mapExcept, hf]⟩
    · simp only [mapExcept]
      cases hfx : f x with
      | error s' => exact ⟨s', rfl⟩
      | ok b =>
        obtain ⟨s', hs'⟩ := ih ha'
        rw [hs']
        exact ⟨s', rfl⟩

theorem forall2_mem_right {α β : Type} {R : α → β → Prop} {l : List α} {l' : List β}
    (h : List.Forall₂ R l l') (b : β) (hb : b ∈ l') : ∃ a ∈ l, R a b := by
  induction h with
  | nil => cases hb
  | cons hr _ ih =>
    rcases List.mem_cons.mp hb with rfl | hb'
    · exact ⟨_, List.mem_cons_self _ _, hr⟩
    · obtain ⟨a, ha, har⟩ := ih hb'
      exact ⟨a, List.mem_cons_of_mem _ ha, har⟩

theorem forall2_map_eq {α β γ : Type} {R : α → β → Prop} {l : List α} {l' : List β}
    (h : List.Forall₂ R l l') (f : α → γ) (g : β → γ) (hfg : ∀ a b, R a b → f a = g b) :
    l.map f = l'.map g := by
  induction h with
  | nil => rfl
  | cons hr _ ih => simp [hfg _ _ hr, ih]

theorem forall2_filter_congr {α β : Type} {R : α → β → Prop} {l : List α} {l' : List β}
    (h : List.Forall₂ R l l') (p : α → Bool) (q : β → Bool)
    (hpq : ∀ a b, R a b → p a = q b) :
    List.Forall₂ R (l.filter p) (l'.filter q) := by
  induction h with
  | nil => exact List.Forall₂.nil
  | @cons a b as bs hr htl ih =>
    by_cases hpa : p a
    · have hqb : q b = true := (hpq _ _ hr) ▸ hpa
      simp only [List.filter_cons, hpa, hqb, if_true]
      exact List.Forall₂.cons hr ih
    · have hqb : q b = false := by rw [← hpq _ _ hr]; exact Bool.not_eq_true _ ▸ (by simpa using hpa)
      simp only [List.filter_cons, hpa, hqb]
      simpa using ih

/-- C1: if the walk over the (possibly truncated) in-window event list reaches
an event whose base type is INTERCEPTION or CLEARANCE belonging to a team
other than the analyzed team, the returned Outcome has turnover = true and no
event after that turnover event contributes to any outcome field; in
particular, for the window [entry@t0, CLEARANCE by the defending team
@t0+1000, SHOT by the attacking team @t0+2000], the result has
turnover = true and shot = false. -/
theorem c1_turnover_short_circuit (team : String) (l1 l2 : List Event) (e : Event)
    (h : is_turnover_event team e = true) :
    (∀ b s, scan_next_events team (l1 ++ e :: l2) b s =
      scan_next_events team (l1 ++ [e]) b s) ∧
    ((∀ x ∈ l1, shot_ok x) → ∀ recycled, ∃ out,
      analyze_events team (l1 ++ e :: l2) recycled = Except.ok out ∧ out.turnover = true) ∧
    (analyze_sequence_outcome "A" c1_events 1 1 0 15000 = Except.ok c1_expected ∧
      c1_expected.turnover = true ∧ c1_expected.shot = false) := by
  refine ⟨fun b s => scan_append_turnover team l1 l2 e h b s, ?_, ?_, rfl, rfl⟩
  · intro hclean recycled
    obtain ⟨res, hres, ht⟩ := scan_reaches_turnover team l1 l2 e h hclean [] []
    obtain ⟨t, b, s⟩ := res
    refine ⟨outcome_from_scan recycled t b s, ?_, ?_⟩
    · unfold analyze_events
      rw [hres]
    · simp only [outcome_from_scan] at ht ⊢
      exact ht
  · simp +decide [analyze_sequence_outcome, next_events_in_window, c1_events, c1_entry,
      c1_clearance, c1_shot, sort_by_timestamp, List.insertionSort, List.orderedInsert, tsLE,
      truncated_next_events, another_entry_in, analyze_events, scan_next_events,
      is_turnover_event, is_box_entry, get_shot_xg, outcome_from_scan, decide_eq_true_eq]
    norm_num
    simp +decide [scan_next_events, is_turnover_event, is_box_entry, outcome_from_scan,
      decide_eq_true_eq, c1_expected]

/-- C1 witness: the theorem applied to the concrete turnover example
(l1 = [entry], e = the defending team's clearance, l2 = [the later shot]). -/
theorem c1_turnover_short_circuit_witness :
    is_turnover_event "A" c1_clearance = true ∧
    (∀ b s, scan_next_events "A" ([c1_entry] ++ c1_clearance :: [c1_shot]) b s =
      scan_next_events "A" ([c1_entry] ++ [c1_clearance]) b s) ∧
    (∀ x ∈ [c1_entry], shot_ok x) ∧
    (∃ out, analyze_events "A" ([c1_entry] ++ c1_clearance :: [c1_shot]) false = Except.ok out ∧
      out.turnover = true) := by
  have h : is_turnover_event "A" c1_clearance = true := by decide
  have hclean : ∀ x ∈ [c1_entry], shot_ok x := by
    intro x hx
    simp only [List.mem_singleton] at hx
    subst hx
    intro hs
    simp [c1_entry] at hs
  have main := c1_turnover_short_circuit "A" [c1_entry] [c1_shot] c1_clearance h
  exact ⟨h, main.1, hclean, main.2.1 hclean false⟩

theorem analyze_events_recycled (team : String) (l : List Event) (r : Bool) (out : Outcome)
    (h : analyze_events team l r = Except.ok out) : out.recycled = r := by
  obtain ⟨t, b, s, _, ho⟩ := (analyze_events_ok_iff team l r out).mp h
  rw [ho]
  rfl

/-- C2: if among the in-window same-sequence events there is an event other
than the triggering entry with start x < 17.5 and end x ≥ 17.5, the outcome
has recycled = true and only events with timestamp strictly before the
earliest such recycled entry's timestamp are scanned; for
[entry@t0, second-entry@t0+5000, shot@t0+8000] with a 15000 ms window,
recycled = true and the later shot contributes nothing (shot = false). -/
theorem c2_recycle_truncation (team : String) (events : List Event) (seq entryId : Nat)
    (ts w : Int) (r : Event) (rest : List Event)
    (h : another_entry_in (next_events_in_window events seq ts w) entryId = r :: rest) :
    (truncated_next_events (next_events_in_window events seq ts w) entryId =
      ((next_events_in_window events seq ts w).filter
        (fun e => decide (e.timestamp < r.timestamp)), true)) ∧
    (∀ x ∈ another_entry_in (next_events_in_window events seq ts w) entryId,
      r.timestamp ≤ x.timestamp) ∧
    (∀ out, analyze_sequence_outcome team events seq entryId ts w = Except.ok out →
      out.recycled = true) ∧
    (analyze_sequence_outcome "A" c2_events 1 1 0 15000 = Except.ok c2_expected ∧
      c2_expected.recycled = true ∧ c2_expected.shot = false) := by
  have htr : truncated_next_events (next_events_in_window events seq ts w) entryId =
      ((next_events_in_window events seq ts w).filter
        (fun e => decide (e.timestamp < r.timestamp)), true) := by
    unfold truncated_next_events
    rw [h]
  refine ⟨htr, ?_, ?_, ?_, rfl, rfl⟩
  · have hs : List.Sorted tsLE (r :: rest) := by
      rw [← h]
      exact another_entry_in_sorted _ _ (next_events_in_window_sorted events seq ts w)
    rw [h]
    exact sorted_head_min r rest hs
  · intro out hout
    simp only [analyze_sequence_outcome, htr] at hout
    exact analyze_events_recycled _ _ _ _ hout
  · simp +decide [analyze_sequence_outcome, next_events_in_window, c2_events, c2_entry,
      c2_second_entry, c2_shot, sort_by_timestamp, List.insertionSort, List.orderedInsert, tsLE,
      truncated_next_events, another_entry_in, analyze_events, scan_next_events,
      is_turnover_event, is_box_entry, get_shot_xg, outcome_from_scan, decide_eq_true_eq]
    norm_num
    simp +decide [scan_next_events, is_turnover_event, is_box_entry, outcome_from_scan,
      decide_eq_true_eq, c2_expected]

/-- C2 witness: the theorem applied to the concrete recycle example, whose
recycled-entry list is exactly [second entry]. -/
theorem c2_recycle_truncation_witness :
    another_entry_in (next_events_in_window c2_events 1 0 15000) 1 = [c2_second_entry] ∧
    (∀ x ∈ another_entry_in (next_events_in_window c2_events 1 0 15000) 1,
      c2_second_entry.timestamp ≤ x.timestamp) ∧
    (∀ out, analyze_sequence_outcome "A" c2_events 1 1 0 15000 = Except.ok out →
      out.recycled = true) := by
  have h : another_entry_in (next_events_in_window c2_events 1 0 15000) 1 =
      c2_second_entry :: [] := by
    simp +decide [another_entry_in, next_events_in_window, c2_events, c2_entry,
      c2_second_entry, c2_shot, sort_by_timestamp, List.insertionSort, List.orderedInsert,
      tsLE, decide_eq_true_eq]
    norm_num
  have main := c2_recycle_truncation "A" c2_events 1 1 0 15000 c2_second_entry [] h
  exact ⟨h, main.2.1, main.2.2.1⟩

/-- C10: the recycle detection of the outcome tracer ignores team, event type
and result: any in-window same-sequence event other than the trigger (by
event id) with start x < 17.5 and end x ≥ 17.5 sets recycled = true and
truncates the scan — including an opponent's unsuccessful clearance crossing
into the final third. -/
theorem c10_recycle_ignores_team_type_result (team : String) (events : List Event)
    (seq entryId : Nat) (ts w : Int) (e : Event)
    (he : e ∈ next_events_in_window events seq ts w) (h1 : e.eventId ≠ entryId)
    (h2 : e.startPosXM < 17.5) (h3 : e.endPosXM ≥ 17.5) :
    (truncated_next_events (next_events_in_window events seq ts w) entryId).2 = true ∧
    (∀ out, analyze_sequence_outcome team events seq entryId ts w = Except.ok out →
      out.recycled = true) ∧
    (∃ out, analyze_sequence_outcome "A" c10_events 1 1 0 15000 = Except.ok out ∧
      out.recycled = true ∧ out.turnover = false) := by
  have hmem : e ∈ another_entry_in (next_events_in_window events seq ts w) entryId := by
    refine List.mem_filter.mpr ⟨he, ?_⟩
    simp only [decide_eq_true_eq]
    exact ⟨h1, h2, h3⟩
  have htr : (truncated_next_events (next_events_in_window events seq ts w) entryId).2 =
      true := by
    cases hae : another_entry_in (next_events_in_window events seq ts w) entryId with
    | nil => rw [hae] at hmem; cases hmem
    | cons r rest =>
      unfold truncated_next_events
      rw [hae]
  refine ⟨htr, ?_, ?_⟩
  · intro out hout
    simp only [analyze_sequence_outcome] at hout
    have := analyze_events_recycled _ _ _ _ hout
    rw [htr] at this
    exact this
  · refine ⟨⟨false, 0, false, 0, false, 0, 0, false, true⟩, ?_, rfl, rfl⟩
    simp +decide [analyze_sequence_outcome, next_events_in_window, c10_events, c1_entry,
      c10_opp_clearance, sort_by_timestamp, List.insertionSort, List.orderedInsert, tsLE,
      truncated_next_events, another_entry_in, analyze_events, scan_next_events,
      is_turnover_event, is_box_entry, get_shot_xg, outcome_from_scan, decide_eq_true_eq]
    norm_num
    simp +decide [scan_next_events, is_turnover_event, is_box_entry, outcome_from_scan,
      decide_eq_true_eq]

/-- C10 witness: the theorem applied to the opponent's unsuccessful clearance
from x = 15 to x = 18 in the concrete window. -/
theorem c10_recycle_ignores_team_type_result_witness :
    c10_opp_clearance ∈ next_events_in_window c10_events 1 0 15000 ∧
    (truncated_next_events (next_events_in_window c10_events 1 0 15000) 1).2 = true ∧
    (∀ out, analyze_sequence_outcome "A" c10_events 1 1 0 15000 = Except.ok out →
      out.recycled = true) := by
  have he : c10_opp_clearance ∈ next_events_in_window c10_events 1 0 15000 := by
    simp +decide [next_events_in_window, c10_events, c1_entry, c10_opp_clearance,
      sort_by_timestamp, List.insertionSort, List.orderedInsert, tsLE, decide_eq_true_eq]
  have main := c10_recycle_ignores_team_type_result "A" c10_events 1 1 0 15000
    c10_opp_clearance he (by decide) (by norm_num [c10_opp_clearance])
    (by norm_num [c10_opp_clearance])
  exact ⟨he, main.1, main.2.1⟩

theorem shots_of_length_clean (l : List Event) (h : ∀ x ∈ l, shot_ok x) :
    (shots_of l).length = (l.filter fun e => decide (e.baseTypeName = "SHOT")).length := by
  induction l with
  | nil => rfl
  | cons x rest ih =>
    have hrest := ih fun y hy => h y (List.mem_cons_of_mem _ hy)
    by_cases hs : x.baseTypeName = "SHOT"
    · obtain ⟨q, hq⟩ := h x (List.mem_cons_self _ _) hs
      simp [shots_of, hs, hq, List.filter_cons, hrest]
    · simp [shots_of, hs, List.filter_cons, hrest]

theorem outcome_from_scan_shot_fields (r t : Bool) (b : List Nat) (s : List ShotRec) :
    (outcome_from_scan r t b s).shot_count = s.length ∧
    (outcome_from_scan r t b s).total_xg = (s.map fun sh => sh.xG).sum := by
  rcases Nat.eq_zero_or_pos s.length with h | h
  · have hs : s = [] := List.length_eq_zero.mp h
    subst hs
    simp [outcome_from_scan]
  · simp [outcome_from_scan, h]

/-- C3 counterexample: on a window containing a SHOT whose metrics cell is
None, the tracer raises a TypeError (propagated as an error) instead of
defaulting the xG to 0 — the claim's "never fails on such a shot" is false. -/
theorem c3_xg_default_counterexample :
    analyze_sequence_outcome "A" c3_events 1 1 0 15000 = Except.error "TypeError" ∧
    c3_shot_no_xg.baseTypeName = "SHOT" ∧ c3_shot_no_xg.metrics = none := by
  refine ⟨?_, rfl, rfl⟩
  simp +decide [analyze_sequence_outcome, next_events_in_window, c3_events, c1_entry,
    c3_shot_no_xg, sort_by_timestamp, List.insertionSort, List.orderedInsert, tsLE,
    truncated_next_events, another_entry_in, analyze_events, scan_next_events,
    is_turnover_event, is_box_entry, get_shot_xg, outcome_from_scan, decide_eq_true_eq]
  norm_num
  simp +decide [scan_next_events, is_turnover_event, is_box_entry, get_shot_xg,
    decide_eq_true_eq]

/-- C3 (amended): when the walk reaches a SHOT it reads
`event["metrics"]["xG"]` with no default — if every scanned SHOT has an xG
value the walk records them all (each recorded shot increments shot_count and
the recorded values are summed into total_xg), and if a reached SHOT lacks
the value the tracer raises and the error propagates. -/
theorem c3_shot_xg_recording (team : String) (l : List Event) :
    ((∀ x ∈ l, is_turnover_event team x = false) → (∀ x ∈ l, shot_ok x) →
      ∀ recycled, analyze_events team l recycled =
          Except.ok (outcome_from_scan recycled false (boxes_of l) (shots_of l)) ∧
        (outcome_from_scan recycled false (boxes_of l) (shots_of l)).shot_count =
          (l.filter fun e => decide (e.baseTypeName = "SHOT")).length ∧
        (outcome_from_scan recycled false (boxes_of l) (shots_of l)).total_xg =
          ((shots_of l).map fun sh => sh.xG).sum) ∧
    (∀ l1 e l2 msg, l = l1 ++ e :: l2 →
      (∀ x ∈ l1, is_turnover_event team x = false) → (∀ x ∈ l1, shot_ok x) →
      e.baseTypeName = "SHOT" → get_shot_xg e = Except.error msg →
      ∀ recycled, analyze_events team l recycled = Except.error msg) := by
  constructor
  · intro h1 h2 recycled
    have hscan := scan_clean_run team l h1 h2 [] []
    simp only [List.nil_append] at hscan
    refine ⟨?_, (outcome_from_scan_shot_fields recycled false (boxes_of l) (shots_of l)).1.trans
        (shots_of_length_clean l h2),
      (outcome_from_scan_shot_fields recycled false (boxes_of l) (shots_of l)).2⟩
    unfold analyze_events
    rw [hscan]
  · intro l1 e l2 msg hl h1 h2 he hxg recycled
    have he1 : is_turnover_event team e = false := by
      simp +decide [is_turnover_event, he]
    subst hl
    have hscan := scan_reaches_error team l1 l2 e msg h1 h2 he1 he hxg [] []
    unfold analyze_events
    rw [hscan]

/-- C3 witness: the amended theorem applied to a clean window
[entry, shot with xG 1/2] (one recorded shot, total_xg = 1/2) and to the
window [entry, shot without metrics] (TypeError propagates). -/
theorem c3_shot_xg_recording_witness :
    (∀ x ∈ [c1_entry, c1_shot], is_turnover_event "A" x = false) ∧
    (∀ x ∈ [c1_entry, c1_shot], shot_ok x) ∧
    analyze_events "A" [c1_entry, c1_shot] false =
      Except.ok (outcome_from_scan false false (boxes_of [c1_entry, c1_shot])
        (shots_of [c1_entry, c1_shot])) ∧
    (outcome_from_scan false false (boxes_of [c1_entry, c1_shot])
      (shots_of [c1_entry, c1_shot])).shot_count = 1 ∧
    (outcome_from_scan false false (boxes_of [c1_entry, c1_shot])
      (shots_of [c1_entry, c1_shot])).total_xg = 1/2 ∧
    analyze_events "A" [c1_entry, c3_shot_no_xg] false = Except.error "TypeError" := by
  have h1 : ∀ x ∈ [c1_entry, c1_shot], is_turnover_event "A" x = false := by decide
  have h2 : ∀ x ∈ [c1_entry, c1_shot], shot_ok x := by
    intro x hx
    rcases List.mem_cons.mp hx with rfl | hx'
    · intro hs; simp [c1_entry] at hs
    · rcases List.mem_cons.mp hx' with rfl | hx''
      · intro _; exact ⟨1/2, rfl⟩
      · cases hx''
  have main1 := (c3_shot_xg_recording "A" [c1_entry, c1_shot]).1 h1 h2 false
  have h1' : ∀ x ∈ [c1_entry], is_turnover_event "A" x = false := by decide
  have h2' : ∀ x ∈ [c1_entry], shot_ok x := by
    intro x hx
    rcases List.mem_cons.mp hx with rfl | hx'
    · intro hs; simp [c1_entry] at hs
    · cases hx'
  have main2 := (c3_shot_xg_recording "A" [c1_entry, c3_shot_no_xg]).2 [c1_entry]
    c3_shot_no_xg [] "TypeError" rfl h1' h2' rfl rfl false
  refine ⟨h1, h2, main1.1, ?_, ?_, main2⟩
  · rw [main1.2.1]
    rfl
  · rw [main1.2.2]
    simp [shots_of, c1_entry, c1_shot, get_shot_xg]

theorem get_final_third_entries_forall2 (events : List Event) (fte : List FTERow)
    (hf : get_final_third_entries events = Except.ok fte) :
    List.Forall₂ (fun e fr => ∃ xa, get_entry_xa e = Except.ok xa ∧ fr = FTERow.ofEvent e xa)
      (events.filter final_third_entry_pred) fte := by
  have h := mapExcept_ok_forall2 _ _ _ hf
  refine h.imp ?_
  intro e fr hefr
  cases hxa : get_entry_xa e with
  | error s => rw [hxa] at hefr; cases hefr
  | ok xa =>
    rw [hxa] at hefr
    injection hefr with hefr
    exact ⟨xa, rfl, hefr.symm⟩

theorem get_zone_entries_data_forall2 (fte : List FTERow) (events : List Event)
    (team : String) (rs : List EntryRow)
    (hz : get_zone_entries_data fte events team = Except.ok rs) :
    List.Forall₂ (fun fr r => r.base = fr ∧
        r.entry_zone = classify_entry_zone fr.endPosXM fr.endPosYM ∧
        analyze_sequence_outcome team events fr.sequenceId fr.eventId fr.timestamp 15000 =
          Except.ok r.outcome)
      (fte.filter fun r => decide (r.teamName = team)) rs := by
  have h := mapExcept_ok_forall2 _ _ _ hz
  refine h.imp ?_
  intro fr r hfr
  cases hout : analyze_sequence_outcome team events fr.sequenceId fr.eventId fr.timestamp 15000 with
  | error s => rw [hout] at hfr; cases hfr
  | ok out =>
    rw [hout] at hfr
    injection hfr with hfr
    have : r = ⟨fr, classify_entry_zone fr.endPosXM fr.endPosYM, out⟩ := hfr.symm
    subst this
    exact ⟨rfl, rfl, rfl⟩

/-- C7: the entry detector for a team returns exactly the PASS/DRIBBLE events
of that team that succeeded, started at x < 17.5 and ended at x ≥ 17.5
(events ending short of 17.5 are dropped, never labeled), and every returned
row carries entry_zone computed solely from end-y:
y < -12 → "right", y > 12 → "left", otherwise "center". -/
theorem c7_entry_detector (events : List Event) (team : String) (fte : List FTERow)
    (rs : List EntryRow)
    (hf : get_final_third_entries events = Except.ok fte)
    (hz : get_zone_entries_data fte events team = Except.ok rs) :
    ((rs.map fun r => r.base.eventId) =
      ((events.filter fun e => final_third_entry_pred e && decide (e.teamName = team)).map
        fun e => e.eventId)) ∧
    (∀ r ∈ rs, r.base.teamName = team ∧ r.base.startPosXM < 17.5 ∧ r.base.endPosXM ≥ 17.5 ∧
      (r.base.baseTypeName = "PASS" ∨ r.base.baseTypeName = "DRIBBLE")) ∧
    (∀ r ∈ rs, r.entry_zone =
      some (if r.base.endPosYM < -12 then "right"
        else if r.base.endPosYM > 12 then "left" else "center")) := by
  have hF := get_final_third_entries_forall2 events fte hf
  have hZ := get_zone_entries_data_forall2 fte events team rs hz
  have hFfilt : List.Forall₂
      (fun e fr => ∃ xa, get_entry_xa e = Except.ok xa ∧ fr = FTERow.ofEvent e xa)
      ((events.filter final_third_entry_pred).filter fun e => decide (e.teamName = team))
      (fte.filter fun r => decide (r.teamName = team)) := by
    refine forall2_filter_congr hF _ _ ?_
    rintro e fr ⟨xa, _, rfl⟩
    rfl
  have hmem : ∀ r ∈ rs, ∃ e xa,
      final_third_entry_pred e = true ∧ decide (e.teamName = team) = true ∧
      r.base = FTERow.ofEvent e xa ∧
      r.entry_zone = classify_entry_zone r.base.endPosXM r.base.endPosYM := by
    intro r hr
    obtain ⟨fr, hfr_mem, hbase, hzone, _⟩ := forall2_mem_right hZ r hr
    obtain ⟨e, he_mem, xa, _, hfr⟩ := forall2_mem_right hFfilt fr hfr_mem
    obtain ⟨he_mem', hteam⟩ := List.mem_filter.mp he_mem
    obtain ⟨_, hpred⟩ := List.mem_filter.mp he_mem'
    refine ⟨e, xa, hpred, hteam, hbase.trans hfr, ?_⟩
    rw [hbase]
    exact hzone
  refine ⟨?_, ?_, ?_⟩
  · have h1 : ((events.filter final_third_entry_pred).filter
        fun e => decide (e.teamName = team)).map (fun e => e.eventId) =
        (fte.filter fun r => decide (r.teamName = team)).map (fun r => r.eventId) := by
      refine forall2_map_eq hFfilt _ _ ?_
      rintro e fr ⟨xa, _, rfl⟩
      rfl
    have h2 : (fte.filter fun r => decide (r.teamName = team)).map (fun r => r.eventId) =
        rs.map (fun r => r.base.eventId) := by
      refine forall2_map_eq hZ _ _ ?_
      rintro fr r ⟨hbase, _, _⟩
      rw [hbase]
    rw [← h2, ← h1, List.filter_filter]
    simp [Bool.and_comm]
  · intro r hr
    obtain ⟨e, xa, hpred, hteam, hbase, _⟩ := hmem r hr
    simp only [final_third_entry_pred, decide_eq_true_eq] at hpred hteam
    obtain ⟨htype, _, hstart, hend⟩ := hpred
    rw [hbase]
    exact ⟨hteam, hstart, hend, htype⟩
  · intro r hr
    obtain ⟨e, xa, hpred, _, hbase, hzone⟩ := hmem r hr
    simp only [final_third_entry_pred, decide_eq_true_eq] at hpred
    have hend : r.base.endPosXM ≥ 17.5 := by
      rw [hbase]
      exact hpred.2.2.2
    rw [hzone, classify_entry_zone, if_neg (not_lt.mpr hend)]
    split_ifs <;> rfl

/-- C7 witness: the detector applied to a table with one qualifying entry for
team A (ending left), one pass falling short of the final third (dropped) and
one entry by the other team. -/
theorem c7_entry_detector_witness :
    get_final_third_entries c7_events =
      Except.ok [FTERow.ofEvent c7_entry_left 0, FTERow.ofEvent c7_entry_b 0] ∧
    (∃ rs, get_zone_entries_data [FTERow.ofEvent c7_entry_left 0, FTERow.ofEvent c7_entry_b 0]
        c7_events "A" = Except.ok rs ∧
      ((rs.map fun r => r.base.eventId) =
        ((c7_events.filter fun e =>
          final_third_entry_pred e && decide (e.teamName = "A")).map fun e => e.eventId)) ∧
      (∀ r ∈ rs, r.entry_zone =
        some (if r.base.endPosYM < -12 then "right"
          else if r.base.endPosYM > 12 then "left" else "center"))) := by
  have hf : get_final_third_entries c7_events =
      Except.ok [FTERow.ofEvent c7_entry_left 0, FTERow.ofEvent c7_entry_b 0] := by
    simp +decide [get_final_third_entries, final_third_entry_pred, mapExcept, get_entry_xa,
      FTERow.ofEvent, c7_events, c7_entry_left, c7_short_pass, c7_entry_b, List.filter_cons,
      List.filter_nil, decide_eq_true_eq]
    norm_num
    simp +decide [mapExcept, get_entry_xa, FTERow.ofEvent, c7_entry_left, c7_entry_b]
  have hz : get_zone_entries_data [FTERow.ofEvent c7_entry_left 0, FTERow.ofEvent c7_entry_b 0]
      c7_events "A" =
      Except.ok [⟨FTERow.ofEvent c7_entry_left 0, some "left",
        ⟨false, 0, false, 0, false, 0, 0, false, false⟩⟩] := by
    simp +decide [get_zone_entries_data, mapExcept, FTERow.ofEvent, c7_events, c7_entry_left,
      c7_short_pass, c7_entry_b, List.filter_cons, List.filter_nil, decide_eq_true_eq,
      analyze_sequence_outcome, next_events_in_window, sort_by_timestamp, List.insertionSort,
      List.orderedInsert, tsLE, truncated_next_events, another_entry_in, analyze_events,
      scan_next_events, is_turnover_event, is_box_entry, get_shot_xg, outcome_from_scan,
      classify_entry_zone]
    norm_num
    simp +decide [mapExcept, scan_next_events, is_turnover_event, is_box_entry,
      outcome_from_scan, classify_entry_zone, FTERow.ofEvent, c7_entry_left, c7_entry_b,
      decide_eq_true_eq]
  have main := c7_entry_detector c7_events "A"
    [FTERow.ofEvent c7_entry_left 0, FTERow.ofEvent c7_entry_b 0]
    [⟨FTERow.ofEvent c7_entry_left 0, some "left", ⟨false, 0, false, 0, false, 0, 0, false, false⟩⟩]
    hf hz
  exact ⟨hf, _, hz, main.1, main.2.2⟩

theorem find_zone_eq_find (l : List Zone) (x y : ℚ) :
    find_zone l x y =
      match l.find? (fun z => decide (zone_contains z x y)) with
      | some z => z.name
      | none => "build_up_zone" := by
  induction l with
  | nil => rfl
  | cons z rest ih =>
    by_cases h : zone_contains z x y
    · simp [find_zone, List.find?, h]
    · simp only [find_zone, if_neg h, ih, List.find?]
      have : decide (zone_contains z x y) = false := decide_eq_false h
      rw [this]

/-- C8: the zone classifier is total and deterministic: for every rational
position (x, y) it returns the name of the first zone, in the fixed iteration
order of the zone table, whose rectangle contains the point with inclusive
bounds, and the sentinel "build_up_zone" when no zone contains it; x = -40
yields "build_up_zone", and the shared-edge point (0, 12) resolves to exactly
the first matching zone, "left_progression". -/
theorem c8_zone_classifier (x y : ℚ) :
    (get_zone_for_position x y =
      match ZONES.find? (fun z => decide (zone_contains z x y)) with
      | some z => z.name
      | none => "build_up_zone") ∧
    ((∀ z ∈ ZONES, ¬ zone_contains z x y) → get_zone_for_position x y = "build_up_zone") ∧
    get_zone_for_position (-40) 0 = "build_up_zone" ∧
    get_zone_for_position 0 12 = "left_progression" ∧
    get_zone_for_position 20 0 = "center_final_third" := by
  refine ⟨find_zone_eq_find ZONES x y, ?_, ?_, ?_, ?_⟩
  · intro h
    rw [get_zone_for_position, find_zone_eq_find ZONES x y]
    have : ZONES.find? (fun z => decide (zone_contains z x y)) = none := by
      apply List.find?_eq_none.mpr
      intro z hz
      simpa using h z hz
    rw [this]
  · norm_num [get_zone_for_position, find_zone, ZONES, zone_contains]
  · norm_num [get_zone_for_position, find_zone, ZONES, zone_contains]
  · norm_num [get_zone_for_position, find_zone, ZONES, zone_contains]

/-- C8 witness: the no-zone-contains hypothesis discharged at the concrete
out-of-pitch point (-40, 0). -/
theorem c8_zone_classifier_witness :
    (∀ z ∈ ZONES, ¬ zone_contains z (-40) 0) ∧
    get_zone_for_position (-40) 0 = "build_up_zone" := by
  have h : ∀ z ∈ ZONES, ¬ zone_contains z (-40) 0 := by
    intro z hz
    simp only [ZONES, List.mem_cons, List.not_mem_nil, or_false] at hz
    rcases hz with rfl | rfl | rfl | rfl | rfl | rfl <;> norm_num [zone_contains]
  exact ⟨h, (c8_zone_classifier (-40) 0).2.1 h⟩

/-- C9: in the per-zone aggregator, for every zone group whose total_shots is
0, xg_per_shot is NaN (embedded as `none`), with no division error (the
aggregator is a total function); for zones with total_shots > 0,
xg_per_shot = total_xg / total_shots; shot_rate =
entries_with_shot / total_entries * 100, so a zone with 10 entries of which 3
have shot = true gets shot_rate exactly 30. -/
theorem c9_zone_stats_rates (rows : List EntryRow) :
    (∀ zs ∈ calculate_entry_zone_stats rows,
      (zs.total_shots = 0 → zs.xg_per_shot = none) ∧
      (0 < zs.total_shots → zs.xg_per_shot = some (zs.total_xg / (zs.total_shots : ℚ))) ∧
      zs.shot_rate = ((zs.entries_with_shot : ℚ) / (zs.total_entries : ℚ)) * 100) ∧
    ((calculate_entry_zone_stats c9_rows).map fun zs => zs.shot_rate) = [30] := by
  constructor
  · intro zs hzs
    obtain ⟨z, _, rfl⟩ := List.mem_map.mp hzs
    refine ⟨?_, ?_, rfl⟩
    · intro h0
      simp only [zone_group_stats] at h0 ⊢
      simp [div_by_nanable, replace_zero_with_nan, h0]
    · intro hpos
      simp only [zone_group_stats] at hpos ⊢
      simp [div_by_nanable, replace_zero_with_nan, Nat.pos_iff_ne_zero.mp hpos]
  · simp +decide [calculate_entry_zone_stats, distinct_keys, c9_rows, c9_row,
      zone_group_stats, List.filter_cons, List.filter_nil, decide_eq_true_eq]
    norm_num

/-- C9 witness: the per-group clauses applied to the concrete 10-entry table
(3 entries with a shot): shot_rate 30, and with 3 total shots
xg_per_shot = 0/3. -/
theorem c9_zone_stats_rates_witness :
    ∃ zs ∈ calculate_entry_zone_stats c9_rows,
      zs.total_shots = 3 ∧ zs.xg_per_shot = some (zs.total_xg / 3) ∧ zs.shot_rate = 30 := by
  have main := (c9_zone_stats_rates c9_rows).1
  have heval : calculate_entry_zone_stats c9_rows =
      [zone_group_stats "center" c9_rows] := by
    simp +decide [calculate_entry_zone_stats, distinct_keys, c9_rows, c9_row,
      List.filter_cons, List.filter_nil, decide_eq_true_eq]
  have hmem : zone_group_stats "center" c9_rows ∈ calculate_entry_zone_stats c9_rows := by
    rw [heval]
    exact List.mem_singleton.mpr rfl
  have hshots : (zone_group_stats "center" c9_rows).total_shots = 3 := by
    simp +decide [zone_group_stats, c9_rows, c9_row]
  have hrate : (zone_group_stats "center" c9_rows).shot_rate = 30 := by
    rw [(main _ hmem).2.2]
    have h1 : (zone_group_stats "center" c9_rows).entries_with_shot = 3 := by
      simp +decide [zone_group_stats, c9_rows, c9_row, List.filter_cons, List.filter_nil]
    have h2 : (zone_group_stats "center" c9_rows).total_entries = 10 := by
      simp +decide [zone_group_stats, c9_rows, c9_row]
    rw [h1, h2]
    norm_num
  refine ⟨zone_group_stats "center" c9_rows, hmem, hshots, ?_, hrate⟩
  have := (main _ hmem).2.1 (by rw [hshots]; norm_num)
  rw [hshots] at this
  exact_mod_cast this

/-- C4: evaluation of `calculate_progressive_passes` at a single successful
team-A pass from x = 0 to x = 12 (progress 12, ending outside the final
third).  The code's two category filters both test end x < 17.5, so the one
pass satisfies both filters and the per-team total counts it twice (2), while
the specified count — ≥ 10 outside the final third, ≥ 5 inside, the regions
partitioning the passes — counts it once. -/
theorem c4_progressive_pass_double_count :
    calculate_progressive_passes c4_df "A" "B" = Except.ok ⟨2, 0, 1, 0, 1, 0⟩ ∧
    progressive_passes_spec c4_df.rows "A" = 1 ∧
    prog_pass_outside_pred c4_pass = true ∧ prog_pass_inside_pred c4_pass = true := by
  refine ⟨?_, ?_, ?_, ?_⟩
  · simp +decide [calculate_progressive_passes, has_cols, all_cols, c4_df, c4_pass,
      prog_pass_outside_pred, prog_pass_inside_pred, List.filter_cons, List.filter_nil,
      decide_eq_true_eq]
    norm_num
  · simp +decide [progressive_passes_spec, progressive_pass_spec, c4_df, c4_pass,
      List.filter_cons, List.filter_nil, decide_eq_true_eq]
    norm_num
  · simp only [prog_pass_outside_pred, c4_pass, decide_eq_true_eq]
    norm_num
  · simp only [prog_pass_inside_pred, c4_pass, decide_eq_true_eq]
    norm_num

/-- C5 counterexample: with one team-A pass starting inside the final third
(x = 20) played back to x = 0 and one team-B pass ending at x = 20, the
code's field tilt for A is 0 (it selects passes by END x ≥ 17.5), while the
claimed start-x-based formula gives A 100. -/
theorem c5_field_tilt_counterexample :
    calculate_field_tilt c5_df "A" "B" = Except.ok ⟨0, 100⟩ ∧
    field_tilt_spec c5_df.rows "A" "B" = 100 ∧ (0 : ℚ) ≠ 100 := by
  refine ⟨?_, ?_, by norm_num⟩
  · simp +decide [calculate_field_tilt, has_cols, all_cols, c5_df, c5_pass_a, c5_pass_b,
      List.filter_cons, List.filter_nil, decide_eq_true_eq]
    norm_num
    decide
  · simp +decide [field_tilt_spec, c5_df, c5_pass_a, c5_pass_b, List.filter_cons,
      List.filter_nil, decide_eq_true_eq]
    norm_num

/-- C5 (amended): a team's field tilt equals the number of its passes whose
END x ≥ 17.5 divided by the number of all passes with end x ≥ 17.5, times
100 (when the frame has the columns and at least one such pass exists). -/
theorem c5_field_tilt_amended (df : EventsDF) (t1 t2 : String)
    (h1 : has_cols df ["baseTypeName", "endPosXM", "teamName"] = true)
    (h2 : (df.rows.filter fun e =>
      decide (e.baseTypeName = "PASS" ∧ e.endPosXM ≥ 17.5)).length ≠ 0) :
    calculate_field_tilt df t1 t2 = Except.ok
      ⟨((((df.rows.filter fun e => decide (e.baseTypeName = "PASS" ∧ e.endPosXM ≥ 17.5)).filter
          fun e => decide (e.teamName = t1)).length : ℚ) /
        (((df.rows.filter fun e =>
          decide (e.baseTypeName = "PASS" ∧ e.endPosXM ≥ 17.5)).length : ℚ))) * 100,
       ((((df.rows.filter fun e => decide (e.baseTypeName = "PASS" ∧ e.endPosXM ≥ 17.5)).filter
          fun e => decide (e.teamName = t2)).length : ℚ) /
        (((df.rows.filter fun e =>
          decide (e.baseTypeName = "PASS" ∧ e.endPosXM ≥ 17.5)).length : ℚ))) * 100⟩ := by
  unfold calculate_field_tilt
  rw [if_pos h1, if_neg h2]

/-- C5 witness: the amended theorem applied to the concrete two-pass table
(one team-B pass ends in the final third). -/
theorem c5_field_tilt_amended_witness :
    has_cols c5_df ["baseTypeName", "endPosXM", "teamName"] = true ∧
    (c5_df.rows.filter fun e =>
      decide (e.baseTypeName = "PASS" ∧ e.endPosXM ≥ 17.5)).length ≠ 0 ∧
    calculate_field_tilt c5_df "A" "B" = Except.ok
      ⟨((((c5_df.rows.filter fun e => decide (e.baseTypeName = "PASS" ∧ e.endPosXM ≥ 17.5)).filter
          fun e => decide (e.teamName = "A")).length : ℚ) /
        (((c5_df.rows.filter fun e =>
          decide (e.baseTypeName = "PASS" ∧ e.endPosXM ≥ 17.5)).length : ℚ))) * 100,
       ((((c5_df.rows.filter fun e => decide (e.baseTypeName = "PASS" ∧ e.endPosXM ≥ 17.5)).filter
          fun e => decide (e.teamName = "B")).length : ℚ) /
        (((c5_df.rows.filter fun e =>
          decide (e.baseTypeName = "PASS" ∧ e.endPosXM ≥ 17.5)).length : ℚ))) * 100⟩ := by
  have h1 : has_cols c5_df ["baseTypeName", "endPosXM", "teamName"] = true := by decide
  have h2 : (c5_df.rows.filter fun e =>
      decide (e.baseTypeName = "PASS" ∧ e.endPosXM ≥ 17.5)).length ≠ 0 := by
    simp +decide [c5_df, c5_pass_a, c5_pass_b, List.filter_cons, List.filter_nil,
      decide_eq_true_eq]
    norm_num
  exact ⟨h1, h2, c5_field_tilt_amended c5_df "A" "B" h1 h2⟩

/-- C6 counterexample: on a dataframe lacking the subscripted columns, the
internal computation of `calculate_successful_passes` raises a KeyError, and
the function converts it into the normal return value None (its except block
has no raise) — so not every analysis function re-raises. -/
theorem c6_error_swallowed_counterexample :
    calculate_successful_passes empty_df "A" "B" = none ∧
    has_cols empty_df ["baseTypeName", "resultName", "teamName"] = false := by
  exact ⟨rfl, rfl⟩

/-- C6 (amended): every modeled analysis function except
`calculate_successful_passes` propagates an internal error unchanged to its
caller (`calculate_field_tilt` re-raises the KeyError; `get_zone_entries_data`
surfaces an error raised by the outcome tracer on any of its rows), while
`calculate_successful_passes` logs and returns None instead. -/
theorem c6_error_propagation :
    (∀ df t1 t2, has_cols df ["baseTypeName", "resultName", "teamName"] = false →
      calculate_successful_passes df t1 t2 = none) ∧
    (∀ df t1 t2, has_cols df ["baseTypeName", "endPosXM", "teamName"] = false →
      calculate_field_tilt df t1 t2 = Except.error "KeyError") ∧
    (∀ fte events team r msg,
      r ∈ fte.filter (fun r => decide (r.teamName = team)) →
      analyze_sequence_outcome team events r.sequenceId r.eventId r.timestamp 15000 =
        Except.error msg →
      ∃ s, get_zone_entries_data fte events team = Except.error s) := by
  refine ⟨?_, ?_, ?_⟩
  · intro df t1 t2 h
    simp [calculate_successful_passes, h]
  · intro df t1 t2 h
    simp [calculate_field_tilt, h]
  · intro fte events team r msg hr hout
    refine mapExcept_error_of_mem _ _ r msg hr ?_
    rw [hout]

/-- C6 witness: the amended theorem applied to the empty-column frame and to
a window whose shot lacks xG metrics (TypeError propagating through
`get_zone_entries_data`). -/
theorem c6_error_propagation_witness :
    has_cols empty_df ["baseTypeName", "resultName", "teamName"] = false ∧
    calculate_successful_passes empty_df "A" "B" = none ∧
    has_cols empty_df ["baseTypeName", "endPosXM", "teamName"] = false ∧
    calculate_field_tilt empty_df "A" "B" = Except.error "KeyError" ∧
    FTERow.ofEvent c1_entry 0 ∈
      ([FTERow.ofEvent c1_entry 0].filter fun r => decide (r.teamName = "A")) ∧
    analyze_sequence_outcome "A" c3_events 1 1 0 15000 = Except.error "TypeError" ∧
    (∃ s, get_zone_entries_data [FTERow.ofEvent c1_entry 0] c3_events "A" =
      Except.error s) := by
  have main := c6_error_propagation
  have h1 : has_cols empty_df ["baseTypeName", "resultName", "teamName"] = false := rfl
  have h2 : has_cols empty_df ["baseTypeName", "endPosXM", "teamName"] = false := rfl
  have hmem : FTERow.ofEvent c1_entry 0 ∈
      ([FTERow.ofEvent c1_entry 0].filter fun r => decide (r.teamName = "A")) := by decide
  have hout : analyze_sequence_outcome "A" c3_events 1 1 0 15000 =
      Except.error "TypeError" := by
    simp +decide [analyze_sequence_outcome, next_events_in_window, c3_events, c1_entry,
      c3_shot_no_xg, sort_by_timestamp, List.insertionSort, List.orderedInsert, tsLE,
      truncated_next_events, another_entry_in, analyze_events, scan_next_events,
      is_turnover_event, is_box_entry, get_shot_xg, outcome_from_scan, decide_eq_true_eq]
    norm_num
    simp +decide [scan_next_events, is_turnover_event, is_box_entry, get_shot_xg,
      decide_eq_true_eq]
  have hout' : analyze_sequence_outcome "A" c3_events (FTERow.ofEvent c1_entry 0).sequenceId
      (FTERow.ofEvent c1_entry 0).eventId (FTERow.ofEvent c1_entry 0).timestamp 15000 =
      Except.error "TypeError" := hout
  exact ⟨h1, main.1 empty_df "A" "B" h1, h2, main.2.1 empty_df "A" "B" h2, hmem, hout,
    main.2.2 [FTERow.ofEvent c1_entry 0] c3_events "A" (FTERow.ofEvent c1_entry 0)
      "TypeError" hmem hout'⟩
